import Mathlib

/-!
Shallow embedding of the IPL dashboard reporting pipeline (src/app.py).

The script loads two tables (`matches.csv`, `deliveries.csv`), filters the
match table by the sidebar's season/team selection, and derives a fixed set
of small aggregate tables for the charts.  Each derived table below mirrors
one assignment in the script.  Nullable CSV columns (`winner`,
`player_of_match`, `dismissal_kind`) are `Option String`; pandas drops NaN
in `value_counts`/`nunique` (the default `dropna=True`), compares NaN as
unequal in `==`, and keeps NaN on the satisfied side of `!=` filters — the
definitions reproduce those semantics.  pandas sorts are modelled by
`List.insertionSort`, a stable sort (this matches `nlargest`'s default
`keep="first"` and `groupby`'s key sort; `sort_values` ties are left
unspecified by pandas, so a stable order is one faithful refinement).
-/

namespace IplDashboard

/-- One row of `matches.csv` as used in `app.py`. -/
structure MatchRow where
  season : String
  date : String
  city : String
  venue : String
  team1 : String
  team2 : String
  toss_winner : String
  toss_decision : String
  winner : Option String
  result : String
  result_margin : Int
  player_of_match : Option String
deriving DecidableEq

/-- One row of `deliveries.csv` as used in `app.py`. -/
structure DeliveryRow where
  match_id : Nat
  batter : String
  bowler : String
  batsman_runs : Nat
  is_wicket : Nat
  dismissal_kind : Option String
deriving DecidableEq

/-- The sidebar selection: `none` stands for the "All" choice. -/
structure FilterSpec where
  season : Option String
  team : Option String
deriving DecidableEq

/-- Lexicographic comparison of code-point lists, the order Python/pandas
uses on strings (ties on a common prefix fall through to the remainder). -/
def charListLe : List Char → List Char → Bool
  | [], _ => true
  | _ :: _, [] => false
  | a :: as, b :: bs =>
    if a.toNat < b.toNat then true
    else if b.toNat < a.toNat then false
    else charListLe as bs

/-- Ascending lexicographic order on strings (the `groupby` key order). -/
def strAsc (a b : String) : Prop := charListLe a.data b.data = true

instance : DecidableRel strAsc :=
  fun a b => inferInstanceAs (Decidable (charListLe a.data b.data = true))

instance : IsTotal String strAsc :=
  ⟨fun a b => by
    obtain ⟨as⟩ := a
    obtain ⟨bs⟩ := b
    show charListLe as bs = true ∨ charListLe bs as = true
    induction as generalizing bs with
    | nil => exact Or.inl rfl
    | cons x xs ih =>
      cases bs with
      | nil => exact Or.inr rfl
      | cons y ys =>
        by_cases h1 : x.toNat < y.toNat
        · exact Or.inl (by simp [charListLe, h1])
        · by_cases h2 : y.toNat < x.toNat
          · exact Or.inr (by simp [charListLe, h1, h2])
          · rcases ih ys with h | h
            · exact Or.inl (by simp [charListLe, h1, h2]; exact h)
            · exact Or.inr (by simp [charListLe, h1, h2]; exact h)⟩

instance : IsTrans String strAsc :=
  ⟨fun a b c => by
    obtain ⟨as⟩ := a
    obtain ⟨bs⟩ := b
    obtain ⟨cs⟩ := c
    show charListLe as bs = true → charListLe bs cs = true →
      charListLe as cs = true
    induction as generalizing bs cs with
    | nil => intro _ _; rfl
    | cons x xs ih =>
      cases bs with
      | nil => intro h1 _; simp [charListLe] at h1
      | cons y ys =>
        cases cs with
        | nil => intro _ h2; simp [charListLe] at h2
        | cons z zs =>
          intro h1 h2
          by_cases hxy : x.toNat < y.toNat
          · by_cases hyz : y.toNat < z.toNat
            · have hxz : x.toNat < z.toNat := lt_trans hxy hyz
              simp [charListLe, hxz]
            · by_cases hzy : z.toNat < y.toNat
              · simp [charListLe, hyz, hzy] at h2
              · have hxz : x.toNat < z.toNat := by omega
                simp [charListLe, hxz]
          · by_cases hyx : y.toNat < x.toNat
            · simp [charListLe, hxy, hyx] at h1
            · by_cases hyz : y.toNat < z.toNat
              · have hxz : x.toNat < z.toNat := by omega
                simp [charListLe, hxz]
              · by_cases hzy : z.toNat < y.toNat
                · simp [charListLe, hyz, hzy] at h2
                · have hxz : ¬ x.toNat < z.toNat := by omega
                  have hzx : ¬ z.toNat < x.toNat := by omega
                  have hr : charListLe xs zs = true := by
                    refine ih ys zs ?_ ?_
                    · simpa [charListLe, hxy, hyx] using h1
                    · simpa [charListLe, hyz, hzy] using h2
                  simp [charListLe, hxz, hzx, hr]⟩

/-- Descending order on the count/value component of an aggregate pair
(`sort_values(ascending=False)` / the internal sort of `value_counts`). -/
def countDesc {α : Type} : (α × Nat) → (α × Nat) → Prop := fun p q => q.2 ≤ p.2

instance {α : Type} : DecidableRel (@countDesc α) :=
  fun p q => inferInstanceAs (Decidable (q.2 ≤ p.2))

instance {α : Type} : IsTotal (α × Nat) countDesc :=
  ⟨fun p q => le_total q.2 p.2⟩

instance {α : Type} : IsTrans (α × Nat) countDesc :=
  ⟨fun _ _ _ h h2 => le_trans h2 h⟩

/-- Descending order on `result_margin` (the order of
`nlargest(·, "result_margin")`). -/
def marginDesc : MatchRow → MatchRow → Prop :=
  fun a b => b.result_margin ≤ a.result_margin

instance : DecidableRel marginDesc :=
  fun a b => inferInstanceAs (Decidable (b.result_margin ≤ a.result_margin))

instance : IsTotal MatchRow marginDesc :=
  ⟨fun a b => le_total b.result_margin a.result_margin⟩

instance : IsTrans MatchRow marginDesc :=
  ⟨fun _ _ _ h h2 => le_trans h2 h⟩

/-- `Series.value_counts()` on a column without nulls: one `(value, count)`
pair per distinct value, ordered by count descending. -/
def valueCounts {α : Type} [DecidableEq α] (xs : List α) : List (α × Nat) :=
  List.insertionSort countDesc (xs.dedup.map (fun v => (v, xs.count v)))

/-- `Series.value_counts()` on a nullable column: the default `dropna=True`
removes the null entries before counting. -/
def valueCountsOpt {α : Type} [DecidableEq α] (xs : List (Option α)) :
    List (α × Nat) :=
  valueCounts (xs.filterMap id)

/-- The sidebar filter block (`app.py` lines 44–48): start from the full
match table, keep the selected season's rows, then the selected team's rows;
"All" (`none`) skips that dimension. -/
def df (spec : FilterSpec) (ms : List MatchRow) : List MatchRow :=
  let d := ms
  let d := match spec.season with
    | none => d
    | some s => d.filter (fun r => r.season == s)
  match spec.team with
  | none => d
  | some t => d.filter (fun r => r.team1 == t || r.team2 == t)

/-- The four KPI cards (`app.py` lines 61–64): `len(df)` and the three
`nunique()` calls (pandas `nunique` counts distinct non-null values; these
columns are non-nullable here). -/
def kpis (rows : List MatchRow) : Nat × Nat × Nat × Nat :=
  (rows.length, (rows.map (fun r => r.venue)).dedup.length,
    (rows.map (fun r => r.city)).dedup.length,
    (rows.map (fun r => r.season)).dedup.length)

/-- `wins = df["winner"].value_counts()` (`app.py` line 75). -/
def wins (rows : List MatchRow) : List (String × Nat) :=
  valueCountsOpt (rows.map (fun r => r.winner))

/-- `toss = df["toss_decision"].value_counts()` (`app.py` line 85). -/
def toss (rows : List MatchRow) : List (String × Nat) :=
  valueCounts (rows.map (fun r => r.toss_decision))

/-- `season_matches = matches.groupby("season").size()` (`app.py` line 100):
group keys are sorted ascending (pandas `groupby` default `sort=True`).
Computed from the full `matches` table, not the filtered `df`. -/
def season_matches (ms : List MatchRow) : List (String × Nat) :=
  (List.insertionSort strAsc (ms.map (fun r => r.season)).dedup).map
    (fun s => (s, (ms.map (fun r => r.season)).count s))

/-- The row-wise boolean `df_toss["toss_winner"] == df_toss["winner"]`
(`app.py` line 110); a null winner compares unequal, as pandas `NaN == x`
is `False`. -/
def toss_match_win (r : MatchRow) : Bool := r.winner == some r.toss_winner

/-- `toss_effect` (`app.py` lines 109–113): value-count the boolean column,
then map `{True: "Yes", False: "No"}`. -/
def toss_effect (rows : List MatchRow) : List (String × Nat) :=
  (valueCounts (rows.map toss_match_win)).map
    (fun p => (if p.1 then ("Yes") else ("No"), p.2))

/-- `venue_counts = df["venue"].value_counts().head(10)` (`app.py` line 127). -/
def venue_counts (rows : List MatchRow) : List (String × Nat) :=
  (valueCounts (rows.map (fun r => r.venue))).take 10

/-- `potm = df["player_of_match"].value_counts().head(10)` (`app.py` line 137). -/
def potm (rows : List MatchRow) : List (String × Nat) :=
  (valueCountsOpt (rows.map (fun r => r.player_of_match))).take 10

/-- `rows.groupby(key)[val].sum()` for delivery rows: one `(key, sum)` pair
per distinct key, keys sorted ascending (pandas default `sort=True`). -/
def groupSum (key : DeliveryRow → String) (val : DeliveryRow → Nat)
    (rows : List DeliveryRow) : List (String × Nat) :=
  (List.insertionSort strAsc (rows.map key).dedup).map
    (fun k => (k, ((rows.filter (fun r => key r == k)).map val).sum))

/-- `top_batsmen` (`app.py` lines 155–157): group deliveries by batter, sum
`batsman_runs`, sort descending, head 10. -/
def top_batsmen (deliveries : List DeliveryRow) : List (String × Nat) :=
  (List.insertionSort countDesc
      (groupSum (fun r => r.batter) (fun r => r.batsman_runs) deliveries)).take 10

/-- The two `wickets` filters (`app.py` lines 166–168): keep rows with
`is_wicket == 1`, then drop `dismissal_kind == "run out"` (a null
dismissal kind satisfies pandas `!= "run out"` and is kept). -/
def wicketRows (deliveries : List DeliveryRow) : List DeliveryRow :=
  (deliveries.filter (fun r => r.is_wicket == 1)).filter
    (fun r => r.dismissal_kind != some ("run out"))

/-- `top_bowlers` (`app.py` lines 169–171): group the filtered wicket rows
by bowler, sum `is_wicket`, sort descending, head 10. -/
def top_bowlers (deliveries : List DeliveryRow) : List (String × Nat) :=
  (List.insertionSort countDesc
      (groupSum (fun r => r.bowler) (fun r => r.is_wicket)
        (wicketRows deliveries))).take 10

/-- `df[df["result"] == rt].nlargest(n, "result_margin")[["winner",
"result_margin","season"]]` (`app.py` lines 188 and 198): `nlargest` with
the default `keep="first"` is a stable descending sort followed by `head n`. -/
def nlargestMargin (rt : String) (n : Nat) (rows : List MatchRow) :
    List (Option String × Int × String) :=
  ((List.insertionSort marginDesc
      (rows.filter (fun r => r.result == rt))).take n).map
    (fun r => (r.winner, r.result_margin, r.season))

/-- `by_runs` (`app.py` line 188). -/
def by_runs (rows : List MatchRow) : List (Option String × Int × String) :=
  nlargestMargin ("runs") 10 rows

/-- `by_wkts` (`app.py` line 198). -/
def by_wkts (rows : List MatchRow) : List (Option String × Int × String) :=
  nlargestMargin ("wickets") 10 rows

/-- All derived tables of one render cycle. -/
structure Dashboard where
  filtered : List MatchRow
  metrics : Nat × Nat × Nat × Nat
  wins : List (String × Nat)
  toss : List (String × Nat)
  season_matches : List (String × Nat)
  toss_effect : List (String × Nat)
  venue_counts : List (String × Nat)
  potm : List (String × Nat)
  top_batsmen : List (String × Nat)
  top_bowlers : List (String × Nat)
  by_runs : List (Option String × Int × String)
  by_wkts : List (Option String × Int × String)

/-- One render cycle of the script: filter the match table, then compute
every chart's table.  The delivery-based tables and `season_matches` do not
read the filtered table, exactly as in the script. -/
def computeDashboard (ms : List MatchRow) (deliveries : List DeliveryRow)
    (spec : FilterSpec) : Dashboard :=
  let d := df spec ms
  { filtered := d
    metrics := kpis d
    wins := wins d
    toss := toss d
    season_matches := season_matches ms
    toss_effect := toss_effect d
    venue_counts := venue_counts d
    potm := potm d
    top_batsmen := top_batsmen deliveries
    top_bowlers := top_bowlers deliveries
    by_runs := by_runs d
    by_wkts := by_wkts d }

/-- Example match: season 2020, A beat B by 10 runs (the spec §8 scenario,
with margins added). -/
def exM1 : MatchRow :=
  { season := "2020", date := "2020-04-01", city := "c1", venue := "v1",
    team1 := "A", team2 := "B", toss_winner := "A", toss_decision := "bat",
    winner := some ("A"), result := "runs", result_margin := 10,
    player_of_match := some ("P1") }

/-- Example match: season 2020, C beat A by 5 wickets. -/
def exM2 : MatchRow :=
  { season := "2020", date := "2020-04-02", city := "c2", venue := "v2",
    team1 := "A", team2 := "C", toss_winner := "C", toss_decision := "field",
    winner := some ("C"), result := "wickets", result_margin := 5,
    player_of_match := some ("P2") }

/-- Example match: season 2021, B beat C by 3 runs. -/
def exM3 : MatchRow :=
  { season := "2021", date := "2021-04-01", city := "c3", venue := "v3",
    team1 := "B", team2 := "C", toss_winner := "B", toss_decision := "bat",
    winner := some ("B"), result := "runs", result_margin := 3,
    player_of_match := some ("P3") }

/-- Example no-result match: the winner column is null. -/
def exM4 : MatchRow :=
  { season := "2020", date := "2020-04-03", city := "c1", venue := "v1",
    team1 := "A", team2 := "B", toss_winner := "A", toss_decision := "bat",
    winner := none, result := "no result", result_margin := 0,
    player_of_match := none }

/-- Example delivery: bowler X, wicket, caught. -/
def exD1 : DeliveryRow :=
  { match_id := 1, batter := "b1", bowler := "X", batsman_runs := 0,
    is_wicket := 1, dismissal_kind := some ("caught") }

/-- Example delivery: bowler X, wicket, run out. -/
def exD2 : DeliveryRow :=
  { match_id := 1, batter := "b2", bowler := "X", batsman_runs := 0,
    is_wicket := 1, dismissal_kind := some ("run out") }

/-- Example delivery: bowler Y, wicket, bowled. -/
def exD3 : DeliveryRow :=
  { match_id := 1, batter := "b3", bowler := "Y", batsman_runs := 4,
    is_wicket := 1, dismissal_kind := some ("bowled") }

/-- The spec §8 delivery scenario: (X, caught), (X, run out), (Y, bowled). -/
def exDeliveries : List DeliveryRow := [exD1, exD2, exD3]

theorem sum_valueCounts {α : Type} [DecidableEq α] (xs : List α) :
    ((valueCounts xs).map Prod.snd).sum = xs.length := by
  have hperm : ((valueCounts xs).map Prod.snd).Perm
      ((xs.dedup.map (fun v => (v, xs.count v))).map Prod.snd) :=
    (List.perm_insertionSort countDesc _).map Prod.snd
  rw [hperm.sum_eq, List.map_map]
  simpa [Function.comp] using List.sum_map_count_dedup_eq_length xs

theorem mem_valueCounts {α : Type} [DecidableEq α] {xs : List α} {p : α × Nat} :
    p ∈ valueCounts xs ↔ p.1 ∈ xs ∧ p.2 = xs.count p.1 := by
  unfold valueCounts
  rw [List.mem_insertionSort, List.mem_map]
  constructor
  · rintro ⟨v, hv, rfl⟩
    exact ⟨List.mem_dedup.mp hv, rfl⟩
  · rintro ⟨h1, h2⟩
    obtain ⟨a, b⟩ := p
    refine ⟨a, List.mem_dedup.mpr h1, ?_⟩
    rw [show b = xs.count a from h2]

theorem df_eq_filter (spec : FilterSpec) (ms : List MatchRow) :
    df spec ms = ms.filter (fun r =>
      (match spec.season with
        | none => true
        | some s => r.season == s)
      && (match spec.team with
        | none => true
        | some t => r.team1 == t || r.team2 == t)) := by
  obtain ⟨os, ot⟩ := spec
  cases os <;> cases ot <;>
    simp [df, List.filter_filter, Bool.and_comm]

/-- C1: FALSIFIED as stated — pandas `value_counts` uses `dropna=True`, so
a null winner is dropped rather than kept as a category: on a 2-row table
with one null winner, the counts sum to 1, not to the row count 2. -/
theorem c1_value_counts_counterexample :
    wins [exM1, exM4] = [("A", 1)]
    ∧ ((wins [exM1, exM4]).map Prod.snd).sum
        ≠ ([exM1, exM4] : List MatchRow).length := by
  decide

/-- C1 (amended): the value-count aggregation's counts sum to the number of
rows whose grouping value is non-null — for `wins` the non-null winners,
for `toss` all rows since `toss_decision` has no nulls; null values are
dropped rather than appearing as a distinct category. -/
theorem c1_value_counts_amended (rows : List MatchRow) :
    ((wins rows).map Prod.snd).sum
        = ((rows.map (fun r => r.winner)).filterMap id).length
    ∧ ((toss rows).map Prod.snd).sum = rows.length := by
  refine ⟨?_, ?_⟩
  · unfold wins valueCountsOpt
    exact sum_valueCounts _
  · unfold toss
    rw [sum_valueCounts, List.length_map]

/-- C4: the filter stage returns exactly the rows satisfying the season
equality (when a season is specified) and the team1/team2 disjunction
(when a team is specified), "All" (`none`) being the identity for that
dimension; on the 3-row example table, filtering season "2020" yields the
two 2020 rows, whose wins-per-team table is A:1, C:1. -/
theorem c4_filter_stage (spec : FilterSpec) (ms : List MatchRow) :
    df spec ms = ms.filter (fun r =>
      (match spec.season with
        | none => true
        | some s => r.season == s)
      && (match spec.team with
        | none => true
        | some t => r.team1 == t || r.team2 == t))
    ∧ df { season := some ("2020"), team := none } [exM1, exM2, exM3] = [exM1, exM2]
    ∧ wins (df { season := some ("2020"), team := none } [exM1, exM2, exM3])
        = [("A", 1), ("C", 1)] :=
  ⟨df_eq_filter spec ms, by decide, by decide⟩

/-- C6: the delivery-based tables (top-10 run scorers and top-10 wicket
takers) are computed from the full delivery table, so they are identical
for every pair of filter specifications. -/
theorem c6_delivery_tables_filter_independent (ms : List MatchRow)
    (ds : List DeliveryRow) (f1 f2 : FilterSpec) :
    (computeDashboard ms ds f1).top_batsmen
        = (computeDashboard ms ds f2).top_batsmen
    ∧ (computeDashboard ms ds f1).top_bowlers
        = (computeDashboard ms ds f2).top_bowlers :=
  ⟨rfl, rfl⟩

/-- C7: the KPI summary is exactly the row count and the distinct venue,
city and season counts of the filtered table; the distinct-venue scalar is
the number of unique venue values, and equals 1 on any single-row table. -/
theorem c7_kpi_distinct_counts (rows : List MatchRow) :
    kpis rows = (rows.length,
      (rows.map (fun r => r.venue)).toFinset.card,
      (rows.map (fun r => r.city)).toFinset.card,
      (rows.map (fun r => r.season)).toFinset.card)
    ∧ ∀ r : MatchRow, kpis [r] = (1, 1, 1, 1) :=
  ⟨by simp [kpis, List.card_toFinset], fun r => rfl⟩

/-- C8: for every filter specification, every row of the filtered match
table occurs in the full table, and the filtered table is no longer than
the full one. -/
theorem c8_filtered_subset (spec : FilterSpec) (ms : List MatchRow) :
    (∀ r ∈ df spec ms, r ∈ ms) ∧ (df spec ms).length ≤ ms.length := by
  rw [df_eq_filter]
  exact ⟨fun r hr => (List.mem_filter.mp hr).1, List.length_filter_le _ _⟩

/-- Witness for C8: the season-2020 filter on the example table keeps a row
of the full table. -/
theorem c8_filtered_subset_witness :
    exM1 ∈ ([exM1, exM2, exM3] : List MatchRow) :=
  (c8_filtered_subset { season := some ("2020"), team := none }
    [exM1, exM2, exM3]).1 exM1 (by decide)

/-- C9: `season_matches` is computed from the full, unfiltered match table,
so it is identical for every pair of filter specifications; its season keys
are in ascending order. -/
theorem c9_season_matches_filter_independent (ms : List MatchRow)
    (ds : List DeliveryRow) (f1 f2 : FilterSpec) :
    (computeDashboard ms ds f1).season_matches
        = (computeDashboard ms ds f2).season_matches
    ∧ (computeDashboard ms ds f1).season_matches = season_matches ms
    ∧ List.Pairwise (fun p q : String × Nat => strAsc p.1 q.1)
        (season_matches ms) := by
  refine ⟨rfl, rfl, ?_⟩
  unfold season_matches
  rw [List.pairwise_map]
  simpa using List.sorted_insertionSort strAsc
    (ms.map (fun r => r.season)).dedup

theorem sum_map_is_wicket {l : List DeliveryRow}
    (h : ∀ r ∈ l, r.is_wicket = 1) :
    (l.map (fun r => r.is_wicket)).sum = l.length := by
  induction l with
  | nil => rfl
  | cons a l ih =>
    simp only [List.map_cons, List.sum_cons, List.length_cons,
      h a (List.mem_cons_self a l),
      ih (fun r hr => h r (List.mem_cons_of_mem a hr))]
    omega

theorem mem_top_bowlers {ds : List DeliveryRow} {p : String × Nat}
    (hp : p ∈ top_bowlers ds) :
    p.1 ∈ (wicketRows ds).map (fun r => r.bowler)
    ∧ p.2 = ((wicketRows ds).filter (fun r => r.bowler == p.1)).length := by
  have h1 : p ∈ List.insertionSort countDesc
      (groupSum (fun r => r.bowler) (fun r => r.is_wicket) (wicketRows ds)) :=
    List.mem_of_mem_take hp
  rw [List.mem_insertionSort] at h1
  unfold groupSum at h1
  rw [List.mem_map] at h1
  obtain ⟨k, hk, rfl⟩ := h1
  rw [List.mem_insertionSort, List.mem_dedup] at hk
  refine ⟨hk, ?_⟩
  show (((wicketRows ds).filter (fun r => r.bowler == k)).map
      (fun r => r.is_wicket)).sum = _
  rw [sum_map_is_wicket]
  intro r hr
  have hr2 := (List.mem_filter.mp hr).1
  unfold wicketRows at hr2
  have hw := (List.mem_filter.mp ((List.mem_filter.mp hr2).1)).2
  simpa using hw

theorem wicket_filter_eq (ds : List DeliveryRow) (k : String) :
    (wicketRows ds).filter (fun r => r.bowler == k)
      = ds.filter (fun r => r.bowler == k
          && (r.is_wicket == 1 && r.dismissal_kind != some ("run out"))) := by
  unfold wicketRows
  rw [List.filter_filter, List.filter_filter]
  refine List.filter_congr fun r _ => ?_
  cases hbw : (r.bowler == k) <;>
    cases hw : (r.is_wicket == 1) <;>
      cases hd : (r.dismissal_kind != some ("run out")) <;> rfl

/-- C2: the bowler wicket aggregation keeps only wicket rows whose dismissal
kind is not "run out"; every entry of `top_bowlers` equals the number of
delivery rows with that bowler, wicket flag 1 and a non-run-out dismissal,
so a run-out wicket row contributes to no bowler's total. -/
theorem c2_top_bowlers_exclude_run_out (ds : List DeliveryRow) :
    ∀ p ∈ top_bowlers ds,
      p.2 = (ds.filter (fun r => r.bowler == p.1
        && (r.is_wicket == 1 && r.dismissal_kind != some ("run out")))).length :=
  fun _ hp => by rw [(mem_top_bowlers hp).2, wicket_filter_eq]

/-- Witness for C2: the spec §8 scenario (X caught, X run out, Y bowled)
yields X:1 and Y:1, not X:2. -/
theorem c2_top_bowlers_witness :
    top_bowlers exDeliveries = [("X", 1), ("Y", 1)]
    ∧ ("X", 1) ∈ top_bowlers exDeliveries
    ∧ (("X", 1) : String × Nat).2
        = (exDeliveries.filter (fun r => r.bowler == "X"
            && (r.is_wicket == 1 && r.dismissal_kind != some ("run out")))).length :=
  ⟨by decide, by decide,
    c2_top_bowlers_exclude_run_out exDeliveries ("X", 1) (by decide)⟩

/-- C10: each top-10 derived table (top venues, top player-of-match, top
run scorers, top wicket takers) has at most 10 rows, and every entry of the
top wicket takers table has a wicket total of at least 1. -/
theorem c10_top10_bounds (rows : List MatchRow) (ds : List DeliveryRow) :
    (venue_counts rows).length ≤ 10
    ∧ (potm rows).length ≤ 10
    ∧ (top_batsmen ds).length ≤ 10
    ∧ (top_bowlers ds).length ≤ 10
    ∧ ∀ p ∈ top_bowlers ds, 1 ≤ p.2 := by
  refine ⟨List.length_take_le _ _, List.length_take_le _ _,
    List.length_take_le _ _, List.length_take_le _ _, fun p hp => ?_⟩
  obtain ⟨hmem, hlen⟩ := mem_top_bowlers hp
  rw [hlen]
  obtain ⟨r, hr, hrk⟩ := List.mem_map.mp hmem
  have hrf : r ∈ (wicketRows ds).filter (fun x => x.bowler == p.1) :=
    List.mem_filter.mpr ⟨hr, by simp [hrk]⟩
  have hpos := List.length_pos.mpr (List.ne_nil_of_mem hrf)
  omega

/-- Witness for C10 at the spec §8 delivery scenario. -/
theorem c10_top10_bounds_witness :
    ("Y", 1) ∈ top_bowlers exDeliveries ∧ 1 ≤ (("Y", 1) : String × Nat).2 :=
  ⟨by decide, (c10_top10_bounds [] exDeliveries).2.2.2.2 ("Y", 1) (by decide)⟩

theorem count_map_toss (rows : List MatchRow) (b : Bool) :
    (rows.map toss_match_win).count b
      = (rows.filter (fun r => toss_match_win r == b)).length := by
  rw [List.count_eq_countP, List.countP_map, List.countP_eq_length_filter]
  rfl

theorem count_map_toss_true (rows : List MatchRow) :
    (rows.map toss_match_win).count true
      = (rows.filter (fun r => toss_match_win r)).length := by
  rw [count_map_toss]
  congr 1
  exact List.filter_congr fun r _ => by cases toss_match_win r <;> rfl

theorem count_map_toss_false (rows : List MatchRow) :
    (rows.map toss_match_win).count false
      = (rows.filter (fun r => !toss_match_win r)).length := by
  rw [count_map_toss]
  congr 1
  exact List.filter_congr fun r _ => by cases toss_match_win r <;> rfl

/-- C5: every entry of the toss-effect table is either "Yes" with the count
of rows whose toss winner equals the match winner, or "No" with the count
of the remaining rows; a null winner compares as false, and when a
null-winner row exists the "No" entry is present and counts such rows. -/
theorem c5_toss_effect_nulls (rows : List MatchRow) :
    (∀ p ∈ toss_effect rows,
        (p.1 = "Yes"
          ∧ p.2 = (rows.filter (fun r => toss_match_win r)).length)
      ∨ (p.1 = "No"
          ∧ p.2 = (rows.filter (fun r => !toss_match_win r)).length))
    ∧ (∀ r : MatchRow, r.winner = none → toss_match_win r = false)
    ∧ (∀ r ∈ rows, r.winner = none →
        ("No", (rows.filter (fun r => !toss_match_win r)).length)
          ∈ toss_effect rows) := by
  refine ⟨?_, ?_, ?_⟩
  · intro p hp
    unfold toss_effect at hp
    rw [List.mem_map] at hp
    obtain ⟨q, hq, rfl⟩ := hp
    rw [mem_valueCounts] at hq
    obtain ⟨hq1, hq2⟩ := hq
    cases hb : q.1
    · right
      refine ⟨by simp [hb], ?_⟩
      show q.2 = _
      rw [hq2, hb, count_map_toss_false]
    · left
      refine ⟨by simp [hb], ?_⟩
      show q.2 = _
      rw [hq2, hb, count_map_toss_true]
  · intro r h
    unfold toss_match_win
    rw [h]
    rfl
  · intro r hr h
    have hf : toss_match_win r = false := by
      unfold toss_match_win
      rw [h]
      rfl
    have hmem : false ∈ rows.map toss_match_win :=
      List.mem_map.mpr ⟨r, hr, hf⟩
    have hvc : ((false, (rows.map toss_match_win).count false) : Bool × Nat)
        ∈ valueCounts (rows.map toss_match_win) :=
      mem_valueCounts.mpr ⟨hmem, rfl⟩
    have h3 : ("No", (rows.map toss_match_win).count false)
        ∈ toss_effect rows := by
      unfold toss_effect
      exact List.mem_map.mpr
        ⟨(false, (rows.map toss_match_win).count false), hvc, rfl⟩
    rw [count_map_toss_false] at h3
    exact h3

/-- Witness for C5: a one-row table whose winner is null produces the
"No" entry with count 1. -/
theorem c5_toss_effect_witness :
    ("No", 1) ∈ toss_effect [exM4] := by
  have h := (c5_toss_effect_nulls [exM4]).2.2 exM4 (by decide) rfl
  simpa using h

theorem filter_orderedInsert_margin (m : Int) (a : MatchRow) (s : List MatchRow) :
    (List.orderedInsert marginDesc a s).filter (fun r => r.result_margin == m)
      = if a.result_margin = m
          then a :: s.filter (fun r => r.result_margin == m)
          else s.filter (fun r => r.result_margin == m) := by
  rw [List.orderedInsert_eq_take_drop, List.filter_append]
  have hsplit : s.filter (fun r => r.result_margin == m)
      = (List.takeWhile (fun b => decide ¬marginDesc a b) s).filter
          (fun r => r.result_margin == m)
        ++ (List.dropWhile (fun b => decide ¬marginDesc a b) s).filter
          (fun r => r.result_margin == m) := by
    conv_lhs => rw [← List.takeWhile_append_dropWhile
      (fun b => decide ¬marginDesc a b) s]
    rw [List.filter_append]
  by_cases ha : a.result_margin = m
  · rw [if_pos ha]
    have htw : (List.takeWhile (fun b => decide ¬marginDesc a b) s).filter
        (fun r => r.result_margin == m) = [] := by
      rw [List.filter_eq_nil_iff]
      intro b hb
      have hb2 := List.mem_takeWhile_imp hb
      have h1 : ¬ marginDesc a b := of_decide_eq_true hb2
      have h2 : ¬ (b.result_margin ≤ a.result_margin) := h1
      simp only [beq_iff_eq]
      omega
    rw [htw, List.nil_append, List.filter_cons_of_pos (by simp [ha]),
      hsplit, htw, List.nil_append]
  · rw [if_neg ha, List.filter_cons_of_neg (by simp [ha]), hsplit]

theorem filter_insertionSort_margin (m : Int) :
    ∀ l : List MatchRow,
      (List.insertionSort marginDesc l).filter (fun r => r.result_margin == m)
        = l.filter (fun r => r.result_margin == m)
  | [] => rfl
  | a :: l => by
    show (List.orderedInsert marginDesc a
        (List.insertionSort marginDesc l)).filter
        (fun r => r.result_margin == m) = _
    rw [filter_orderedInsert_margin, filter_insertionSort_margin m l]
    by_cases ha : a.result_margin = m
    · rw [if_pos ha, List.filter_cons_of_pos (by simp [ha])]
    · rw [if_neg ha, List.filter_cons_of_neg (by simp [ha])]

/-- C3: the top-N-by-margin selection returns `min N (#rows of the result
type)` rows, is the projection to (winner, margin, season) of a stable
descending sort's first N rows, every taken margin is ≥ every left-behind
margin of the same result type, and rows of equal margin keep their
relative input order (each margin class of the sort equals that of the
input). -/
theorem c3_nlargest_margin (rows : List MatchRow) (rt : String) (n : Nat) :
    (nlargestMargin rt n rows).length
        = min n (rows.filter (fun r => r.result == rt)).length
    ∧ nlargestMargin rt n rows
        = ((List.insertionSort marginDesc
            (rows.filter (fun r => r.result == rt))).take n).map
            (fun r => (r.winner, r.result_margin, r.season))
    ∧ (∀ x ∈ (List.insertionSort marginDesc
          (rows.filter (fun r => r.result == rt))).take n,
        ∀ y ∈ (List.insertionSort marginDesc
          (rows.filter (fun r => r.result == rt))).drop n,
          y.result_margin ≤ x.result_margin)
    ∧ (∀ m : Int,
        (List.insertionSort marginDesc
            (rows.filter (fun r => r.result == rt))).filter
            (fun r => r.result_margin == m)
          = (rows.filter (fun r => r.result == rt)).filter
            (fun r => r.result_margin == m)) := by
  refine ⟨?_, rfl, ?_, fun m => filter_insertionSort_margin m _⟩
  · unfold nlargestMargin
    rw [List.length_map, List.length_take,
      (List.perm_insertionSort marginDesc _).length_eq]
  · intro x hx y hy
    have hs : List.Pairwise marginDesc
        (List.insertionSort marginDesc
          (rows.filter (fun r => r.result == rt))) :=
      List.sorted_insertionSort marginDesc _
    rw [← List.take_append_drop n (List.insertionSort marginDesc
      (rows.filter (fun r => r.result == rt)))] at hs
    exact (List.pairwise_append.mp hs).2.2 x hx y hy

/-- Witness for C3 on the example table, result type "runs", N = 1. -/
theorem c3_nlargest_margin_witness :
    (exM1 ∈ (List.insertionSort marginDesc
        ([exM1, exM2, exM3].filter (fun r => r.result == "runs"))).take 1)
    ∧ (exM3 ∈ (List.insertionSort marginDesc
        ([exM1, exM2, exM3].filter (fun r => r.result == "runs"))).drop 1)
    ∧ exM3.result_margin ≤ exM1.result_margin :=
  ⟨by decide, by decide,
    (c3_nlargest_margin [exM1, exM2, exM3] ("runs") 1).2.2.1 exM1 (by decide)
      exM3 (by decide)⟩

end IplDashboard
